import Mathlib

/-!
Verification of the Mastercard statement parser (`backend/pdf_parser.py`).

The Python module is shallowly embedded below.  Strings are modelled as
`List Char` (with `String` wrappers keeping the source's function names),
Python `float` amounts as exact rationals `ℚ`, Python `datetime` values as a
`PyDate` record validated like `datetime.datetime(year, month, day)`, and
fallible parsers as `Option`-valued functions.  The regular expressions used
by the source are each embedded as an explicit scanning function; every such
pattern in the source is deterministic (no productive backtracking: each
greedy repetition is followed by a token disjoint from it), so a
maximal-munch scanner is an exact model.  Character classes are modelled at
ASCII (`\d`, `\s`, `[A-Za-z]`, `str.lower`, `str.upper` restricted to
ASCII); all text handled by the claims is ASCII.
-/

attribute [local semireducible] Rat.add Rat.sub Rat.mul Rat.inv Rat.ofScientific

namespace MC

/-- ASCII model of Python's `str.strip` whitespace set and of `\s`. -/
def pyWhitespace (c : Char) : Bool :=
  c == ' ' || c == '\t' || c == '\n' || c == '\r' || c == '\x0b' || c == '\x0c'

/-- The character class `[\d.,]` used by the header-field regexes. -/
def isAmtChar (c : Char) : Bool :=
  c.isDigit || c == '.' || c == ','

/-- `str.strip()` on a character list. -/
def stripL (cs : List Char) : List Char :=
  ((cs.dropWhile pyWhitespace).reverse.dropWhile pyWhitespace).reverse

/-- `str.lower()` (ASCII). -/
def lowerL (cs : List Char) : List Char := cs.map Char.toLower

/-- `str.upper()` (ASCII). -/
def upperL (cs : List Char) : List Char := cs.map Char.toUpper

/-- Boolean "needle is a prefix of hay" on character lists. -/
def isPrefixOfB : List Char → List Char → Bool
  | [], _ => true
  | _ :: _, [] => false
  | a :: as, b :: bs => a == b && isPrefixOfB as bs

/-- Python's substring test `needle in hay`. -/
def containsSub (needle : List Char) : List Char → Bool
  | [] => needle.isEmpty
  | c :: t => isPrefixOfB needle (c :: t) || containsSub needle t

/-- Index of the first occurrence of `needle` in the haystack, if any. -/
def firstIndexOfSub (needle : List Char) : List Char → Option Nat
  | [] => if needle.isEmpty then some 0 else none
  | c :: t =>
      if isPrefixOfB needle (c :: t) then some 0
      else (firstIndexOfSub needle t).map (· + 1)

/-- Helper for `rfind`: index of the last occurrence of `needle`, offset by `i`. -/
def lastIndexOfSubAux (needle : List Char) : List Char → Nat → Option Nat
  | [], i => if needle.isEmpty then some i else none
  | c :: t, i =>
      match lastIndexOfSubAux needle t (i + 1) with
      | some j => some j
      | none => if isPrefixOfB needle (c :: t) then some i else none

/-- `hay.split(needle)[0]`: the text before the first occurrence of `needle`
(the whole haystack when `needle` is absent). -/
def beforeFirst (needle hay : List Char) : List Char :=
  match firstIndexOfSub needle hay with
  | some i => hay.take i
  | none => hay

/-- `hay[:hay.rfind(needle)]`: the text before the last occurrence of
`needle`.  When `needle` is absent Python's `rfind` yields `-1` and the
slice `hay[:-1]` drops the final character, which `List.dropLast` mirrors. -/
def takeBeforeLast (needle hay : List Char) : List Char :=
  match lastIndexOfSubAux needle hay 0 with
  | some i => hay.take i
  | none => hay.dropLast

/-- `re.sub(r'\s+', ' ', s)`: collapse each whitespace run to one space. -/
def collapseAux : Bool → List Char → List Char
  | _, [] => []
  | inWs, c :: t =>
      if pyWhitespace c then
        if inWs then collapseAux true t else ' ' :: collapseAux true t
      else c :: collapseAux false t

/-- Whitespace-run collapse used on merchant names (line 222 of the source). -/
def collapseWS (cs : List Char) : List Char := collapseAux false cs

/-- Decimal digit characters to the number they denote (`int` on digits). -/
def digitsToNat (ds : List Char) : Nat :=
  ds.foldl (fun n c => 10 * n + (c.toNat - 48)) 0

/-- Exponent suffix of a Python float literal: `sign? digits`, consuming the
whole remainder. -/
def parseExpPart (cs : List Char) : Option Int :=
  match cs with
  | [] => none
  | '+' :: r => if !r.isEmpty && r.all Char.isDigit then some (digitsToNat r) else none
  | '-' :: r => if !r.isEmpty && r.all Char.isDigit then some (-(digitsToNat r : Int)) else none
  | _ => if cs.all Char.isDigit then some (digitsToNat cs) else none

/-- After the mantissa of a float literal: end of input or an exponent. -/
def parseFinish (q : ℚ) (cs : List Char) : Option ℚ :=
  match cs with
  | [] => some q
  | 'e' :: r => (parseExpPart r).map (fun e => q * (10 : ℚ) ^ e)
  | 'E' :: r => (parseExpPart r).map (fun e => q * (10 : ℚ) ^ e)
  | _ => none

/-- Unsigned part of a Python float literal: `digits [. digits]` with at
least one digit, then an optional exponent. -/
def parseUnsigned (sgn : ℚ) (cs : List Char) : Option ℚ :=
  match cs.dropWhile Char.isDigit with
  | '.' :: r2 =>
      if (cs.takeWhile Char.isDigit).isEmpty && (r2.takeWhile Char.isDigit).isEmpty then none
      else
        parseFinish
          (sgn * ((digitsToNat (cs.takeWhile Char.isDigit) : ℚ)
            + (digitsToNat (r2.takeWhile Char.isDigit) : ℚ)
              / (10 : ℚ) ^ (r2.takeWhile Char.isDigit).length))
          (r2.dropWhile Char.isDigit)
  | r1 =>
      if (cs.takeWhile Char.isDigit).isEmpty then none
      else parseFinish (sgn * (digitsToNat (cs.takeWhile Char.isDigit) : ℚ)) r1

/-- Model of Python's `float(text)` on the texts this parser can produce:
an optional sign, a decimal mantissa, an optional exponent.  (`inf`, `nan`
and digit-group underscores are not modelled; the call sites only ever pass
text drawn from the character class `[-\d.,]`.) -/
def parseFloatChars : List Char → Option ℚ
  | '+' :: r => parseUnsigned 1 r
  | '-' :: r => parseUnsigned (-1) r
  | cs => parseUnsigned 1 cs

/-- The Argentine-format separator normalisation of `parse_amount`
(lines 54-57): with both `,` and `.` present, drop the periods and turn the
comma into a decimal point; with only `,`, turn it into a decimal point. -/
def normalizeSeps (cs : List Char) : List Char :=
  if cs.contains ',' && cs.contains '.' then
    (cs.filter (fun c => !(c == '.'))).map (fun c => if c == ',' then '.' else c)
  else if cs.contains ',' then
    cs.map (fun c => if c == ',' then '.' else c)
  else cs

/-- `parse_amount` on a character list (lines 44-63 of the source). -/
def parseAmountL (cs0 : List Char) : ℚ :=
  let t0 := stripL cs0
  if t0.isEmpty then 0
  else
    let isNeg := t0.head? == some '-' || t0.head? == some '('
    let t1 := stripL (t0.filter (fun c => !(c == '(' || c == ')' || c == '-')))
    match parseFloatChars (normalizeSeps t1) with
    | some v => if isNeg then -v else v
    | none => 0

/-- `parse_amount`: Argentine-format amount text to a (rational-valued)
amount, `0` on empty or unparseable input. -/
def parse_amount (text : String) : ℚ := parseAmountL text.data

/-- A calendar date as produced by `datetime.datetime(year, month, day)`. -/
structure PyDate where
  year : Nat
  month : Nat
  day : Nat
deriving Repr, DecidableEq

/-- The month-abbreviation dictionary of `parse_date` (lines 68-71). -/
def monthsTable : List (List Char × Nat) :=
  [("ene".data, 1), ("feb".data, 2), ("mar".data, 3), ("abr".data, 4),
   ("may".data, 5), ("jun".data, 6), ("jul".data, 7), ("ago".data, 8),
   ("sep".data, 9), ("oct".data, 10), ("nov".data, 11), ("dic".data, 12)]

/-- `months.get(month_str, 1)`: dictionary lookup with default 1 (line 79). -/
def monthsGet (m : List Char) : Nat :=
  match (monthsTable.find? (fun p => p.1 == m)) with
  | some p => p.2
  | none => 1

/-- Whether `m` is one of the twelve known (lower-cased) month tokens. -/
def isKnownMonth (m : List Char) : Bool :=
  monthsTable.any (fun p => p.1 == m)

/-- Gregorian leap-year rule, as used by `datetime`. -/
def isLeapYear (y : Nat) : Bool :=
  y % 4 == 0 && (y % 100 != 0 || y % 400 == 0)

/-- Length of a month, as validated by `datetime`. -/
def daysInMonth (y m : Nat) : Nat :=
  if m == 2 then (if isLeapYear y then 29 else 28)
  else if m == 4 || m == 6 || m == 9 || m == 11 then 30
  else 31

/-- `datetime.datetime(y, m, d)`: a date when the arguments are in range,
an exception — modelled as `none`, since `parse_date` catches it — otherwise. -/
def mkDatetime (y m d : Nat) : Option PyDate :=
  if 1 ≤ y ∧ y ≤ 9999 ∧ 1 ≤ m ∧ m ≤ 12 ∧ 1 ≤ d ∧ d ≤ daysInMonth y m
  then some ⟨y, m, d⟩ else none

/-- The groups of the date regex `(\d{1,2})-([A-Za-z]{3})-(\d{2})` together
with the unmatched remainder of the input. -/
structure DateTok where
  dayC : List Char
  monC : List Char
  yrC : List Char
  rest : List Char
deriving Repr, DecidableEq

/-- The two-digit-day alternative of `\d{1,2}-[A-Za-z]{3}-\d{2}`, anchored
at the head of the list (tried first: `{1,2}` is greedy). -/
def scanDate2 : List Char → Option DateTok
  | d1 :: d2 :: '-' :: m1 :: m2 :: m3 :: '-' :: y1 :: y2 :: r =>
      if d1.isDigit && d2.isDigit && m1.isAlpha && m2.isAlpha && m3.isAlpha
          && y1.isDigit && y2.isDigit
      then some ⟨[d1, d2], [m1, m2, m3], [y1, y2], r⟩ else none
  | _ => none

/-- The one-digit-day alternative, tried when the two-digit one fails. -/
def scanDate1 : List Char → Option DateTok
  | d1 :: '-' :: m1 :: m2 :: m3 :: '-' :: y1 :: y2 :: r =>
      if d1.isDigit && m1.isAlpha && m2.isAlpha && m3.isAlpha
          && y1.isDigit && y2.isDigit
      then some ⟨[d1], [m1, m2, m3], [y1, y2], r⟩ else none
  | _ => none

/-- `re.match(r'(\d{1,2})-([A-Za-z]{3})-(\d{2})', ...)`: anchored at the
start, trailing input permitted. -/
def scanDateTok (cs : List Char) : Option DateTok :=
  match scanDate2 cs with
  | some t => some t
  | none => scanDate1 cs

/-- The matched date token reassembled, as in `f"{g1}-{g2}-{g3}"`. -/
def dateTokChars (dt : DateTok) : List Char :=
  dt.dayC ++ '-' :: dt.monC ++ '-' :: dt.yrC

/-- `parse_date` (lines 66-84): match the `DD-Mmm-YY` shape at the start of
the stripped text, look the lower-cased month up with default January, add
2000 to the year, and build a `datetime` — `none` when the shape does not
match or the day is out of range for the (possibly defaulted) month. -/
def parse_date (text : String) : Option PyDate :=
  match scanDateTok (stripL text.data) with
  | none => none
  | some dt =>
      mkDatetime (2000 + digitsToNat dt.yrC) (monthsGet (lowerL dt.monC))
        (digitsToNat dt.dayC)

/-- `is_subtotal_row` (lines 87-99): case-insensitive substring test
against the fixed list of subtotal/summary phrases. -/
def is_subtotal_row (text : String) : Bool :=
  containsSub ("total titular".data) (lowerL text.data)
  || containsSub ("total adicional".data) (lowerL text.data)
  || containsSub ("saldo actual".data) (lowerL text.data)
  || containsSub ("pago minimo".data) (lowerL text.data)
  || containsSub ("detalle del mes".data) (lowerL text.data)
  || containsSub ("su pago".data) (lowerL text.data)
  || containsSub ("transfer financ".data) (lowerL text.data)

/-- One transaction from the statement (the `Transaction` dataclass,
lines 12-20). -/
structure Transaction where
  date : PyDate
  merchant : String
  coupon_number : String
  amount_pesos : ℚ
  amount_dollars : ℚ
  is_dollar : Bool
deriving Repr, DecidableEq

/-- The core of `-?[\d]+[.,][\d]+` after the optional minus: a maximal
digit run, one separator, a maximal nonempty digit run.  Returns the match
and the remainder after it.  (The pattern is deterministic: backtracking a
greedy `[\d]+` can only place `[.,]` on a digit, which fails.) -/
def matchNumCore (cs : List Char) : Option (List Char × List Char) :=
  if (cs.takeWhile Char.isDigit).isEmpty then none
  else
    match cs.dropWhile Char.isDigit with
    | c :: r2 =>
        if c == '.' || c == ',' then
          if (r2.takeWhile Char.isDigit).isEmpty then none
          else some (cs.takeWhile Char.isDigit ++ c :: r2.takeWhile Char.isDigit,
            r2.dropWhile Char.isDigit)
        else none
    | [] => none

/-- `-?[\d]+[.,][\d]+` anchored at the head of the list. -/
def matchNumAt : List Char → Option (List Char × List Char)
  | '-' :: t => (matchNumCore t).map (fun p => ('-' :: p.1, p.2))
  | cs => matchNumCore cs

/-- `re.findall` scan: left to right, non-overlapping, advancing one
character past positions with no match.  `fuel` bounds the number of steps;
each step consumes at least one character, so `cs.length` suffices. -/
def findNumsAux : Nat → List Char → List (List Char)
  | 0, _ => []
  | _ + 1, [] => []
  | f + 1, c :: t =>
      match matchNumAt (c :: t) with
      | some p => p.1 :: findNumsAux f p.2
      | none => findNumsAux f t

/-- `re.findall(r'-?[\d]+[.,][\d]+', rest)` (line 200). -/
def findNums (cs : List Char) : List (List Char) := findNumsAux cs.length cs

/-- The literal text that line 210's pattern actually searches for:
`amount_str.replace('.', '\\.').replace(',', '\\,')` inserts a backslash
before each separator, and `re.escape` then escapes that backslash itself,
so the final regex requires a literal backslash before each separator. -/
def escapeAmountLit (tok : List Char) : List Char :=
  tok.foldr (fun c acc => if c == '.' || c == ',' then '\\' :: c :: acc else c :: acc) []

/-- `\s(\d{5})\s+LIT` anchored at the head: one whitespace, exactly five
digits, at least one whitespace, then the literal `lit`.  (`lit` starts
with a digit or `-`, so the greedy `\s+` is deterministic.) -/
def matchCouponAt (lit : List Char) : List Char → Option (List Char)
  | w :: a :: b :: c :: d :: e :: r =>
      if pyWhitespace w && a.isDigit && b.isDigit && c.isDigit && d.isDigit && e.isDigit then
        match r with
        | x :: _ =>
            if pyWhitespace x && isPrefixOfB lit (r.dropWhile pyWhitespace)
            then some [a, b, c, d, e] else none
        | [] => none
      else none
  | _ => none

/-- `re.search` of the coupon pattern over `rest` (line 210): the group of
the leftmost match, if any. -/
def couponSearch (lit : List Char) : List Char → Option (List Char)
  | [] => none
  | c :: t =>
      match matchCouponAt lit (c :: t) with
      | some g => some g
      | none => couponSearch lit t

/-- `re.sub(r'\s+\d{5}$', '', m)` (line 225): drop a trailing "whitespace
run then exactly five digits" suffix, if present. -/
def stripTrailingCoupon (m : List Char) : List Char :=
  match m.reverse with
  | d1 :: d2 :: d3 :: d4 :: d5 :: w :: r =>
      if d1.isDigit && d2.isDigit && d3.isDigit && d4.isDigit && d5.isDigit
          && pyWhitespace w
      then ((w :: r).dropWhile pyWhitespace).reverse
      else m
  | _ => m

/-- Merchant-name extraction (lines 213-225): the text before the first
occurrence of the coupon when one was found, otherwise the text before the
last occurrence of the amount; then whitespace-collapse, strip, and removal
of a trailing five-digit token. -/
def merchantOf (rest amountStr : List Char) : List Char :=
  stripTrailingCoupon (stripL (collapseWS
    (match couponSearch (escapeAmountLit amountStr) rest with
     | some c => stripL (beforeFirst c rest)
     | none => stripL (takeBeforeLast amountStr rest))))

/-- Lines 227-245: the amount goes into the column selected by
`is_dollar`; the other column is `0.0`. -/
def mkTx (date : PyDate) (merchant coupon : List Char) (amount : ℚ)
    (isDollar : Bool) : Transaction :=
  if isDollar then
    { date := date, merchant := String.mk merchant, coupon_number := String.mk coupon,
      amount_pesos := 0, amount_dollars := amount, is_dollar := true }
  else
    { date := date, merchant := String.mk merchant, coupon_number := String.mk coupon,
      amount_pesos := amount, amount_dollars := 0, is_dollar := false }

/-- Lines 196-245, after the date has been parsed: classify the currency,
take the last number as the amount, extract coupon and merchant, and build
the transaction.  (The source computes the coupon once and reuses it for
the merchant; both uses are reproduced by the pure `couponSearch`.) -/
def txFromRest (date : PyDate) (rest : List Char) : Option Transaction :=
  match (findNums rest).getLast? with
  | none => none
  | some amountStr =>
      some (mkTx date (merchantOf rest amountStr)
        ((couponSearch (escapeAmountLit amountStr) rest).getD [])
        (parseAmountL amountStr)
        (containsSub ("USA,".data) (upperL rest)))

/-- `re.match(r'^(\d{1,2}-[A-Za-z]{3}-\d{2})\s+(.+)', line.strip())`
(line 185): the date token, then at least one whitespace, then a nonempty
group 2 — which, `.` not matching a newline, runs to the first `'\n'`. -/
def splitDatePrefix (cs : List Char) : Option (List Char × List Char) :=
  match scanDateTok cs with
  | none => none
  | some dt =>
      match dt.rest with
      | c :: r =>
          if pyWhitespace c then
            match (c :: r).dropWhile pyWhitespace with
            | [] => none
            | c2 :: r2 => some (dateTokChars dt, (c2 :: r2).takeWhile (fun x => !(x == '\n')))
          else none
      | [] => none

/-- `parse_transaction_line` (lines 170-245). -/
def parse_transaction_line (line : String) : Option Transaction :=
  if is_subtotal_row line then none
  else
    match splitDatePrefix (stripL line.data) with
    | none => none
    | some p =>
        match parse_date (String.mk p.1) with
        | none => none
        | some date => txFromRest date (stripL p.2)

/-- `re.search`: try a position matcher at each suffix, left to right. -/
def searchWith (m : List Char → Option α) : List Char → Option α
  | [] => none
  | c :: t =>
      match m (c :: t) with
      | some g => some g
      | none => searchWith m t

/-- `SALDO ACTUAL\s*\$?\s*([\d.,]+)\s*U\$S\s*([\d.,]+)` (IGNORECASE,
line 108) anchored at the head of the list; yields the two groups.  All
greedy pieces are followed by tokens disjoint from them, so maximal munch
is exact. -/
def matchSaldoAt (cs : List Char) : Option (List Char × List Char) :=
  if isPrefixOfB ("saldo actual".data) (lowerL cs) then
    let r1 := (cs.drop 12).dropWhile pyWhitespace
    let r2 := match r1 with | '$' :: t => t | _ => r1
    let r3 := r2.dropWhile pyWhitespace
    if (r3.takeWhile isAmtChar).isEmpty then none
    else
      let r5 := (r3.dropWhile isAmtChar).dropWhile pyWhitespace
      if isPrefixOfB ("u$s".data) (lowerL r5) then
        let r6 := (r5.drop 3).dropWhile pyWhitespace
        if (r6.takeWhile isAmtChar).isEmpty then none
        else some (r3.takeWhile isAmtChar, r6.takeWhile isAmtChar)
      else none
  else none

/-- `extract_saldo_actual` (lines 102-113): the current-balance pair, or
`(0, 0)` when the pattern does not occur. -/
def extract_saldo_actual (text : String) : ℚ × ℚ :=
  match searchWith matchSaldoAt text.data with
  | some g => (parseAmountL g.1, parseAmountL g.2)
  | none => (0, 0)

/-- `SALDO PENDIENTE\s+([\d.,]+)\s+([\d.,]+)` (IGNORECASE, line 125)
anchored at the head of the list. -/
def matchPendienteAt (cs : List Char) : Option (List Char × List Char) :=
  if isPrefixOfB ("saldo pendiente".data) (lowerL cs) then
    let r0 := cs.drop 15
    match r0 with
    | w :: _ =>
        if pyWhitespace w then
          let r1 := r0.dropWhile pyWhitespace
          if (r1.takeWhile isAmtChar).isEmpty then none
          else
            let r2 := r1.dropWhile isAmtChar
            match r2 with
            | w2 :: _ =>
                if pyWhitespace w2 then
                  let r3 := r2.dropWhile pyWhitespace
                  if (r3.takeWhile isAmtChar).isEmpty then none
                  else some (r1.takeWhile isAmtChar, r3.takeWhile isAmtChar)
                else none
            | [] => none
        else none
    | [] => none
  else none

/-- `extract_saldo_pendiente` (lines 116-130): previous-month balance
pair, or `(0, 0)` when the pattern does not occur. -/
def extract_saldo_pendiente (text : String) : ℚ × ℚ :=
  match searchWith matchPendienteAt text.data with
  | some g => (parseAmountL g.1, parseAmountL g.2)
  | none => (0, 0)

/-- `ESTADO DE CUENTA AL:\s*(\d{1,2})-([A-Za-z]{3})-(\d{2})` (IGNORECASE,
line 139) anchored at the head of the list. -/
def matchEstadoAt (cs : List Char) : Option DateTok :=
  if isPrefixOfB ("estado de cuenta al:".data) (lowerL cs) then
    scanDateTok ((cs.drop 20).dropWhile pyWhitespace)
  else none

/-- `extract_statement_date` (lines 133-145): `(date, month, year)` from
the statement-date header, `(none, 0, 0)` when absent or invalid. -/
def extract_statement_date (text : String) : Option PyDate × Nat × Nat :=
  match searchWith matchEstadoAt text.data with
  | some dt =>
      match parse_date (String.mk (dateTokChars dt)) with
      | some d => (some d, d.month, d.year)
      | none => (none, 0, 0)
  | none => (none, 0, 0)

/-- `PROXIMO\s*SECOND\s*(\d{1,2})-([A-Za-z]{3})-(\d{2})` (IGNORECASE)
anchored at the head, where `second` is the second label word (with its
colon) and `skip` its length. -/
def matchProximoAt (second : List Char) (skip : Nat) (cs : List Char) : Option DateTok :=
  if isPrefixOfB ("proximo".data) (lowerL cs) then
    let r1 := (cs.drop 7).dropWhile pyWhitespace
    if isPrefixOfB second (lowerL r1) then
      scanDateTok ((r1.drop skip).dropWhile pyWhitespace)
    else none
  else none

/-- `extract_proximo_cierre` (lines 148-156). -/
def extract_proximo_cierre (text : String) : Option PyDate :=
  match searchWith (matchProximoAt ("cierre:".data) 7) text.data with
  | some dt => parse_date (String.mk (dateTokChars dt))
  | none => none

/-- `extract_proximo_vencimiento` (lines 159-167). -/
def extract_proximo_vencimiento (text : String) : Option PyDate :=
  match searchWith (matchProximoAt ("vencimiento:".data) 12) text.data with
  | some dt => parse_date (String.mk (dateTokChars dt))
  | none => none

/-- Parsed statement data (the `StatementData` dataclass, lines 23-41). -/
structure StatementData where
  saldo_actual_pesos : ℚ
  saldo_actual_dolares : ℚ
  transactions : List Transaction
  impuestos_pesos : ℚ
  impuestos_dolares : ℚ
  total_transactions_pesos : ℚ
  total_transactions_dolares : ℚ
  saldo_pendiente_pesos : ℚ
  saldo_pendiente_dolares : ℚ
  month : Nat
  year : Nat
  statement_date : Option PyDate
  proximo_cierre : Option PyDate
  proximo_vencimiento : Option PyDate
deriving Repr, DecidableEq

/-- `full_text.split('\n')`, keeping empty pieces like Python's `split`. -/
def splitLinesAux (acc : List Char) : List Char → List (List Char)
  | [] => [acc.reverse]
  | '\n' :: t => acc.reverse :: splitLinesAux [] t
  | c :: t => splitLinesAux (c :: acc) t

/-- Split a text into its lines at `'\n'`. -/
def splitLines (cs : List Char) : List (List Char) := splitLinesAux [] cs

/-- `re.match(r'^\d{1,2}-[A-Za-z]{3}-\d{2}\s', line)` (line 301): date
shape at the start followed by one whitespace character. -/
def lineStartsWithDate (cs : List Char) : Bool :=
  match scanDateTok cs with
  | some dt =>
      match dt.rest with
      | c :: _ => pyWhitespace c
      | [] => false
  | none => false

/-- Sum of the peso amounts of a transaction list (line 310). -/
def txTotalPesos (txs : List Transaction) : ℚ :=
  (txs.map Transaction.amount_pesos).sum

/-- Sum of the dollar amounts of a transaction list (line 311). -/
def txTotalDolares (txs : List Transaction) : ℚ :=
  (txs.map Transaction.amount_dollars).sum

/-- `parse_mastercard_pdf` (lines 248-339), taking the per-page texts that
`pdfplumber` would extract as input.  The header extractors run on the
first page's text (an absent first page contributes the empty string, on
which every extractor returns its default, exactly as the skipped
`page_num == 0` branch would); transactions are collected from the lines of
the concatenation of all pages, each page suffixed with `'\n'`. -/
def parse_mastercard_pdf (pages : List String) : StatementData :=
  let firstPage := pages.headD ""
  let txs := (splitLines ((pages.map (fun p => p.data ++ ['\n'])).foldr (· ++ ·) [])).filterMap
    (fun l =>
      if (stripL l).isEmpty then none
      else if lineStartsWithDate (stripL l) then parse_transaction_line (String.mk (stripL l))
      else none)
  { saldo_actual_pesos := (extract_saldo_actual firstPage).1
    saldo_actual_dolares := (extract_saldo_actual firstPage).2
    transactions := txs
    impuestos_pesos := (extract_saldo_actual firstPage).1 - txTotalPesos txs
      - (extract_saldo_pendiente firstPage).1
    impuestos_dolares := (extract_saldo_actual firstPage).2 - txTotalDolares txs
      - (extract_saldo_pendiente firstPage).2
    total_transactions_pesos := txTotalPesos txs
    total_transactions_dolares := txTotalDolares txs
    saldo_pendiente_pesos := (extract_saldo_pendiente firstPage).1
    saldo_pendiente_dolares := (extract_saldo_pendiente firstPage).2
    month := (extract_statement_date firstPage).2.1
    year := (extract_statement_date firstPage).2.2
    statement_date := (extract_statement_date firstPage).1
    proximo_cierre := extract_proximo_cierre firstPage
    proximo_vencimiento := extract_proximo_vencimiento firstPage }

/-- Every transaction that `parse_transaction_line` emits is built by
`mkTx` (lines 227-245). -/
theorem parse_tx_shape (line : String) (t : Transaction)
    (h : parse_transaction_line line = some t) :
    ∃ d m c a b, t = mkTx d m c a b := by
  unfold parse_transaction_line at h
  split at h
  · exact absurd h (by simp)
  · split at h
    · exact absurd h (by simp)
    · split at h
      · exact absurd h (by simp)
      · unfold txFromRest at h
        split at h
        · exact absurd h (by simp)
        · exact ⟨_, _, _, _, _, (Option.some.inj h).symm⟩

/-- A successful `matchSaldoAt` starts with the lower-cased label. -/
theorem matchSaldoAt_lit {cs : List Char} {g : List Char × List Char}
    (h : matchSaldoAt cs = some g) :
    isPrefixOfB ("saldo actual".data) (lowerL cs) = true := by
  unfold matchSaldoAt at h
  split at h
  · assumption
  · exact absurd h (by simp)

/-- A successful search for the current-balance pattern implies the text
contains the label, case-insensitively. -/
theorem searchWith_saldo {cs : List Char} {g : List Char × List Char}
    (h : searchWith matchSaldoAt cs = some g) :
    containsSub ("saldo actual".data) (lowerL cs) = true := by
  induction cs with
  | nil => simp [searchWith] at h
  | cons c t ih =>
      unfold searchWith at h
      cases hm : matchSaldoAt (c :: t) with
      | some g2 =>
          have hp := matchSaldoAt_lit hm
          simp only [lowerL, List.map_cons] at hp ⊢
          simp [containsSub, hp]
      | none =>
          rw [hm] at h
          have hc := ih h
          simp only [lowerL, List.map_cons] at hc ⊢
          simp [containsSub, hc]

/-- Looking an unknown month abbreviation up yields the default `1`. -/
theorem monthsGet_of_unknown {m : List Char} (h : isKnownMonth m = false) :
    monthsGet m = 1 := by
  unfold monthsGet
  unfold isKnownMonth at h
  cases hf : monthsTable.find? (fun p => p.1 == m) with
  | none => rfl
  | some p =>
      rw [List.any_eq_false] at h
      exact absurd (List.find?_some hf)
        (by simpa using h p (List.mem_of_find?_eq_some hf))

/-- Sample statement used to witness the reconciliation theorem: one page
whose declared current balance equals its single transaction. -/
def samplePages : List String :=
  ["SALDO ACTUAL $ 1500,00 U$S 0,00\n26-Nov-25 NETFLIX.COM 00779 1500,00"]

/-- C1: the claim says the standalone five-digit token `02842` preceding
the amount becomes `coupon_number` and the merchant is the text before it.
In fact the coupon regex of line 210 first inserts a backslash before each
separator of the amount (`replace('.', '\\.')`, `replace(',', '\\,')`) and
then `re.escape`s the result, so it searches for a literal backslash that
transaction text never contains: the search fails on the source's own
docstring example and `coupon_number` is the empty string (the merchant
only loses the token through the trailing-five-digit cleanup of
line 225). -/
theorem c1_coupon_reference_lost :
    couponSearch (escapeAmountLit ("46500,00".data)) ("PUPPIS 02842 46500,00".data) = none
    ∧ parse_transaction_line ("30-Nov-25 PUPPIS 02842 46500,00")
      = some ⟨⟨2025, 11, 30⟩, "PUPPIS", "", 46500, 0, false⟩ := by
  constructor
  · decide
  · decide

/-- C2 counterexample: a parsable line whose amount is `0,00` produces a
transaction in which both amount fields are zero, so "exactly one of the
two amount fields is non-zero" fails. -/
theorem c2_zero_amount_counterexample :
    parse_transaction_line ("26-Nov-25 SHOP 0,00")
      = some ⟨⟨2025, 11, 26⟩, "SHOP", "", 0, 0, false⟩ := by
  decide

/-- C2 (amended): at most one of `amount_pesos` / `amount_dollars` is
non-zero on any transaction `parse_transaction_line` returns, and whenever
a field is non-zero, `is_dollar` is true exactly when that field is the
dollar one.  (When the parsed amount is zero both fields are zero, which
refutes the original "exactly one".) -/
theorem c2_currency_split (line : String) (t : Transaction)
    (h : parse_transaction_line line = some t) :
    ¬(t.amount_pesos ≠ 0 ∧ t.amount_dollars ≠ 0)
    ∧ (t.amount_dollars ≠ 0 → t.is_dollar = true)
    ∧ (t.amount_pesos ≠ 0 → t.is_dollar = false) := by
  obtain ⟨d, m, c, a, b, rfl⟩ := parse_tx_shape line t h
  cases b <;> simp [mkTx]

/-- C2 witness: the amended invariant at a concrete peso line. -/
theorem c2_currency_split_witness :
    parse_transaction_line ("1-Ene-26 CAFE 10,50")
      = some ⟨⟨2026, 1, 1⟩, "CAFE", "", 10.5, 0, false⟩
    ∧ ¬((10.5 : ℚ) ≠ 0 ∧ (0 : ℚ) ≠ 0) :=
  ⟨by decide, (c2_currency_split ("1-Ene-26 CAFE 10,50") ⟨⟨2026, 1, 1⟩, "CAFE", "", 10.5, 0, false⟩ (by decide)).1⟩

/-- C3 counterexample: `Xyz` is none of the twelve month tokens, yet
`parse_date` returns a date (January is substituted by the
`months.get(month_str, 1)` default of line 79) instead of the claimed
`None`. -/
theorem c3_unknown_month_counterexample :
    parse_date ("26-Xyz-25") = some ⟨2025, 1, 26⟩ := by
  decide

/-- C3 (amended): on input whose stripped text matches the date shape but
whose three-letter month abbreviation is not one of the twelve tokens,
`parse_date` does not return `none`; it substitutes month 1 (January) and
returns `datetime(2000 + YY, 1, DD)` — a date whenever the day is valid,
`none` only for an out-of-range day.  (It still never raises, and
shape-mismatching input still yields `none`.) -/
theorem c3_unknown_month_defaults_january (text : String) (dt : DateTok)
    (h1 : scanDateTok (stripL text.data) = some dt)
    (h2 : isKnownMonth (lowerL dt.monC) = false) :
    parse_date text = mkDatetime (2000 + digitsToNat dt.yrC) 1 (digitsToNat dt.dayC) := by
  unfold parse_date
  rw [h1]
  dsimp only
  rw [monthsGet_of_unknown h2]

/-- C3 witness: the amended statement at `26-Xyz-25`. -/
theorem c3_unknown_month_witness :
    scanDateTok (stripL (("26-Xyz-25").data)) = some ⟨"26".data, "Xyz".data, "25".data, []⟩
    ∧ isKnownMonth (lowerL ("Xyz".data)) = false
    ∧ parse_date ("26-Xyz-25") = mkDatetime 2025 1 26 :=
  ⟨by decide, by decide,
    c3_unknown_month_defaults_january ("26-Xyz-25") ⟨"26".data, "Xyz".data, "25".data, []⟩
      (by decide) (by decide)⟩

/-- C4: on every document the reported `impuestos` figures satisfy
`impuestos = saldo_actual − (sum of the collected transactions' amounts)
− saldo_pendiente`, per currency (lines 315-316); consequently whenever the
declared current balance equals the transaction sum plus the declared
prior balance, the residual is exactly `0`. -/
theorem c4_impuestos_residual (pages : List String) :
    (parse_mastercard_pdf pages).impuestos_pesos
      = (parse_mastercard_pdf pages).saldo_actual_pesos
        - txTotalPesos (parse_mastercard_pdf pages).transactions
        - (parse_mastercard_pdf pages).saldo_pendiente_pesos
    ∧ (parse_mastercard_pdf pages).impuestos_dolares
      = (parse_mastercard_pdf pages).saldo_actual_dolares
        - txTotalDolares (parse_mastercard_pdf pages).transactions
        - (parse_mastercard_pdf pages).saldo_pendiente_dolares
    ∧ ((parse_mastercard_pdf pages).saldo_actual_pesos
        = txTotalPesos (parse_mastercard_pdf pages).transactions
          + (parse_mastercard_pdf pages).saldo_pendiente_pesos
        → (parse_mastercard_pdf pages).impuestos_pesos = 0)
    ∧ ((parse_mastercard_pdf pages).saldo_actual_dolares
        = txTotalDolares (parse_mastercard_pdf pages).transactions
          + (parse_mastercard_pdf pages).saldo_pendiente_dolares
        → (parse_mastercard_pdf pages).impuestos_dolares = 0) := by
  refine ⟨rfl, rfl, ?_, ?_⟩
  · intro h
    have e : (parse_mastercard_pdf pages).impuestos_pesos
        = (parse_mastercard_pdf pages).saldo_actual_pesos
          - txTotalPesos (parse_mastercard_pdf pages).transactions
          - (parse_mastercard_pdf pages).saldo_pendiente_pesos := rfl
    rw [e, h]
    ring
  · intro h
    have e : (parse_mastercard_pdf pages).impuestos_dolares
        = (parse_mastercard_pdf pages).saldo_actual_dolares
          - txTotalDolares (parse_mastercard_pdf pages).transactions
          - (parse_mastercard_pdf pages).saldo_pendiente_dolares := rfl
    rw [e, h]
    ring

/-- C4 witness: the balanced sample statement has residual exactly `0` in
both currencies. -/
theorem c4_impuestos_residual_witness :
    (parse_mastercard_pdf samplePages).saldo_actual_pesos
      = txTotalPesos (parse_mastercard_pdf samplePages).transactions
        + (parse_mastercard_pdf samplePages).saldo_pendiente_pesos
    ∧ (parse_mastercard_pdf samplePages).saldo_actual_dolares
      = txTotalDolares (parse_mastercard_pdf samplePages).transactions
        + (parse_mastercard_pdf samplePages).saldo_pendiente_dolares
    ∧ (parse_mastercard_pdf samplePages).impuestos_pesos = 0
    ∧ (parse_mastercard_pdf samplePages).impuestos_dolares = 0 :=
  ⟨by decide, by decide,
    (c4_impuestos_residual samplePages).2.2.1 (by decide),
    (c4_impuestos_residual samplePages).2.2.2 (by decide)⟩

/-- C5: the documented `parse_amount` examples — Argentine thousands and
decimal separators, the two redundant negative markers, and the
best-effort zero on empty or unparseable input. -/
theorem c5_parse_amount_examples :
    parse_amount ("1.234,56") = 1234.56
    ∧ parse_amount ("123,45") = 123.45
    ∧ parse_amount ("(500,00)") = -500
    ∧ parse_amount ("-500,00") = -500
    ∧ parse_amount ("") = 0
    ∧ parse_amount ("abc") = 0 := by
  refine ⟨?_, ?_, ?_, ?_, ?_, ?_⟩ <;> decide

/-- C6: `findall` collects every locale-decimal token of the remainder in
order, and the transaction amount is the last one: on the spec's example
remainder the matches are `600,00` then `0,41`, and the parsed line
carries `0.41` (a dollar amount, the line holding the `USA,` marker) —
not `600.00`. -/
theorem c6_last_match_is_amount :
    findNums ("GOOGLE *YouTube (USA,ARS, 600,00) 00761 0,41".data)
      = ["600,00".data, "0,41".data]
    ∧ parse_transaction_line ("26-Nov-25 GOOGLE *YouTube (USA,ARS, 600,00) 00761 0,41")
      = some ⟨⟨2025, 11, 26⟩, "GOOGLE *YouTube (USA,ARS, 600,00)", "", 0, 0.41, true⟩ := by
  constructor
  · decide
  · decide

/-- C7: any line containing `SALDO ACTUAL` case-insensitively is caught by
`is_subtotal_row` (line 93), so `parse_transaction_line` returns no
transaction for it, whatever else the line holds. -/
theorem c7_saldo_actual_never_transaction (line : String)
    (h : containsSub ("saldo actual".data) (lowerL line.data) = true) :
    parse_transaction_line line = none := by
  have hs : is_subtotal_row line = true := by
    unfold is_subtotal_row
    simp [h]
  unfold parse_transaction_line
  simp [hs]

/-- C7 witness: a date-shaped line that still contains the phrase. -/
theorem c7_saldo_actual_never_transaction_witness :
    containsSub ("saldo actual".data) (lowerL (("26-Nov-25 SALDO ACTUAL 100,00").data)) = true
    ∧ parse_transaction_line ("26-Nov-25 SALDO ACTUAL 100,00") = none :=
  ⟨by decide, c7_saldo_actual_never_transaction ("26-Nov-25 SALDO ACTUAL 100,00") (by decide)⟩

/-- C8: when the first-page text does not contain the `SALDO ACTUAL` label
(case-insensitively), the balance search cannot match and
`extract_saldo_actual` returns the `(0, 0)` defaults of lines 104-105. -/
theorem c8_missing_label_yields_zero (text : String)
    (h : containsSub ("saldo actual".data) (lowerL text.data) = false) :
    extract_saldo_actual text = (0, 0) := by
  unfold extract_saldo_actual
  cases hs : searchWith matchSaldoAt text.data with
  | none => rfl
  | some g => exact absurd (searchWith_saldo hs) (by simp [h])

/-- C8 witness: a first page with amounts but no balance label. -/
theorem c8_missing_label_yields_zero_witness :
    containsSub ("saldo actual".data)
      (lowerL (("RESUMEN 123,45 U$S 6,78 sin etiqueta").data)) = false
    ∧ extract_saldo_actual ("RESUMEN 123,45 U$S 6,78 sin etiqueta") = (0, 0) :=
  ⟨by decide, c8_missing_label_yields_zero ("RESUMEN 123,45 U$S 6,78 sin etiqueta") (by decide)⟩

/-- C9: when the input has no comma, the separator normalisation of
lines 54-57 leaves the text unchanged, so a period is handed to `float`
as the decimal point: `1.234` parses as `1.234`, not `1234`. -/
theorem c9_period_is_decimal_separator :
    (∀ cs : List Char, cs.contains ',' = false → normalizeSeps cs = cs)
    ∧ parse_amount ("1.234") = 1.234
    ∧ parse_amount ("1.234") ≠ 1234 := by
  refine ⟨?_, by decide, by decide⟩
  intro cs h
  have h' : ¬(',' ∈ cs) := by simpa using h
  simp [normalizeSeps, h']

/-- C9 witness: the normalisation hypothesis holds on `1.234` itself. -/
theorem c9_period_is_decimal_separator_witness :
    (("1.234").data).contains ',' = false
    ∧ normalizeSeps (("1.234").data) = ("1.234").data :=
  ⟨by decide, c9_period_is_decimal_separator.1 (("1.234").data) (by decide)⟩

/-- C10: the amount column not selected by `is_dollar` is exactly zero on
every transaction `parse_transaction_line` returns (lines 227-245): a
dollar transaction carries `amount_pesos = 0`, a peso transaction carries
`amount_dollars = 0`. -/
theorem c10_unclassified_currency_zero (line : String) (t : Transaction)
    (h : parse_transaction_line line = some t) :
    (t.is_dollar = true → t.amount_pesos = 0)
    ∧ (t.is_dollar = false → t.amount_dollars = 0) := by
  obtain ⟨d, m, c, a, b, rfl⟩ := parse_tx_shape line t h
  cases b <;> simp [mkTx]

/-- C10 witness: the invariant at a concrete dollar line. -/
theorem c10_unclassified_currency_zero_witness :
    parse_transaction_line ("13-Dic-25 NETFLIX.COM (USA,ARS, 25398,00) 00779 17,63")
      = some ⟨⟨2025, 12, 13⟩, "NETFLIX.COM (USA,ARS, 25398,00)", "", 0, 17.63, true⟩
    ∧ ((true = true → (0 : ℚ) = 0) ∧ (true = false → (17.63 : ℚ) = 0)) :=
  ⟨by decide,
    c10_unclassified_currency_zero ("13-Dic-25 NETFLIX.COM (USA,ARS, 25398,00) 00779 17,63")
      ⟨⟨2025, 12, 13⟩, "NETFLIX.COM (USA,ARS, 25398,00)", "", 0, 17.63, true⟩ (by decide)⟩

end MC
